import Mathlib

/-!
Verification of the process-lifecycle logic of claude_muzak.py (Claude Muzak).

The program controls one background playback session: it spawns a detached
player process (a bash loop running afplay on a chosen audio file), records
the process id in a marker file at a fixed path, and later reads that marker
to check liveness, stop the session (killing the recorded process's children
via pkill -P, the process itself via SIGTERM, and finally any process whose
command line matches the pattern afplay.*muzakfiles via pkill -f), and to
drive a keyboard listener that cancels playback on trigger keys.

The OS world visible to the program is embedded as an explicit state:
  - the marker file content (absent, a decimal pid, or unparsable garbage);
  - the set of live processes, each with its pid, its parent pid (when the
    parent is another modelled process), and whether its command line matches
    the player signature afplay.*muzakfiles used by the fallback pkill sweep;
  - whether the music directory exists and which audio files it holds
    (the directory glob is an external collaborator of the program);
  - a fresh-pid counter for spawning and an index standing for random.choice.
Each Python method becomes a function from this state to a new state plus the
list of lines it prints; a Python exception becomes an Except value, caught
exactly where the source catches it.
-/

namespace ClaudeMuzak

/-- Content of the pid marker file at /tmp/claude_elevator_music.pid.
The program itself only ever writes str(process.pid), i.e. a decimal pid;
garbage stands for any file content on which int(content.strip()) raises
ValueError. -/
inductive MarkerContent where
  | pidStr (pid : Nat)
  | garbage
deriving DecidableEq, Repr

/-- One live OS process: its pid, its parent pid (none when the parent is not
one of the modelled processes, e.g. the short-lived tool process itself), and
whether its full command line matches the pattern afplay.*muzakfiles that the
fallback pkill -f sweep in stop_music targets. The spawned driver
(bash -c while true; do afplay "<musicdir>/<file>"; done) does match that
pattern, since its command line contains afplay followed by the muzakfiles
path. -/
structure Proc where
  pid : Nat
  parent : Option Nat
  isPlayerCmd : Bool
deriving DecidableEq, Repr

/-- The OS state visible to the program. -/
structure SysState where
  /-- The marker file: none means the file is absent. -/
  marker : Option MarkerContent
  /-- The live processes. -/
  procs : List Proc
  /-- Whether the muzakfiles directory exists. -/
  musicDirExists : Bool
  /-- The audio files the directory glob finds (names of files matching the
  recognized extensions). -/
  musicFiles : List String
  /-- The pid the OS will assign to the next spawned process. -/
  nextPid : Nat
  /-- Models random.choice: the chosen index into the music file list, taken
  modulo its length. -/
  rand : Nat
deriving DecidableEq, Repr

/-- Whether pid refers to a live (signalable) process: the semantics of
os.kill(pid, 0) succeeding. -/
def aliveB (s : SysState) (pid : Nat) : Bool :=
  s.procs.any (fun p => p.pid == pid)

/-- ClaudeMuzak.is_music_playing: if the pid file is absent, return False.
Otherwise read it, parse the pid (int raises ValueError on garbage) and
probe with os.kill(pid, 0) (raises OSError when the pid is not live); on
either exception the handler unlinks the pid file and returns False. The
source re-checks pid_file.exists() before unlink; in this single-threaded
model the file still exists there, so the unlink always happens. -/
def is_music_playing (s : SysState) : Bool × SysState :=
  match s.marker with
  | none => (false, s)
  | some .garbage => (false, { s with marker := none })
  | some (.pidStr pid) =>
      if aliveB s pid then (true, s)
      else (false, { s with marker := none })

/-- ClaudeMuzak.get_random_music_file: raise FileNotFoundError when the music
directory is missing or the glob finds no audio file, otherwise pick one at
random (random.choice is modelled by indexing with s.rand modulo the length).
The Except value carries the exception message; the source messages
interpolate the directory path, abbreviated here to the directory name. -/
def get_random_music_file (s : SysState) : Except String String :=
  if !s.musicDirExists then
    .error "Music directory muzakfiles not found"
  else
    match s.musicFiles with
    | [] => .error "No audio files found in muzakfiles"
    | f :: fs => .ok ((f :: fs).getD (s.rand % (f :: fs).length) f)

/-- ClaudeMuzak.start_music: inside a try/except over the whole body, return
after printing "already playing" (unless quiet) when is_music_playing is
True; otherwise select a music file (whose FileNotFoundError is the one
exception the body can raise in this model, landing in the except branch
that prints "Error starting music" unless quiet), spawn the detached bash
loop process (streams to /dev/null), and write its pid to the pid file.
The second component is the list of printed lines in order. -/
def start_music (quiet : Bool) (s : SysState) : SysState × List String :=
  let pr := is_music_playing s
  if pr.1 then
    (pr.2, if quiet then [] else ["Elevator music is already playing"])
  else
    match get_random_music_file pr.2 with
    | .error e => (pr.2, if quiet then [] else ["Error starting music: " ++ e])
    | .ok name =>
        let pid := pr.2.nextPid
        let s2 : SysState :=
          { pr.2 with
            procs := ⟨pid, none, true⟩ :: pr.2.procs,
            nextPid := pr.2.nextPid + 1,
            marker := some (.pidStr pid) }
        (s2, if quiet then []
             else ["🎵 Selected: " ++ name,
                   "🎵 Started elevator music (PID: " ++ toString pid ++ ")"])

/-- The body of ClaudeMuzak.stop_music, i.e. everything inside its outer
try: if the pid file exists, read and parse the pid — on garbage content
int raises ValueError, which nothing inside the body catches (the inner
except clause only catches OSError and CalledProcessError), so the body
ends in that exception with no state change, the read being the first
action. With a parsed pid: run pkill -P pid (SIGTERM to the direct children
of pid; subprocess.run without check never raises on a nonzero exit), then
os.kill(pid, SIGTERM); an OSError from an already-dead pid lands in the
inner except and is ignored — both are modelled by list filters, which are
no-ops on dead pids. Then unlink the pid file and print "Stopped" (unless
quiet); in the absent-marker branch print "not playing" (unless quiet).
Either way, finish with the fallback sweep pkill -f afplay.*muzakfiles,
killing every process whose command line matches the player signature. -/
def stop_music_body (quiet : Bool) (s : SysState) :
    Except String (SysState × List String) :=
  match s.marker with
  | some .garbage =>
      .error "invalid literal for int() with base 10"
  | some (.pidStr pid) =>
      let procs1 := s.procs.filter (fun p => !(p.parent == some pid))
      let procs2 := procs1.filter (fun p => !(p.pid == pid))
      let s1 : SysState := { s with marker := none, procs := procs2 }
      let s2 : SysState := { s1 with procs := s1.procs.filter (fun p => !p.isPlayerCmd) }
      .ok (s2, if quiet then [] else ["🔇 Stopped elevator music"])
  | none =>
      let s1 : SysState := { s with procs := s.procs.filter (fun p => !p.isPlayerCmd) }
      .ok (s1, if quiet then [] else ["Elevator music is not playing"])

/-- ClaudeMuzak.stop_music: the body wrapped in the outer
try/except Exception handler, which reduces any exception to the message
"Error stopping music: ..." (suppressed when quiet). The only exception the
body can raise occurs before any state change, so the state is returned
unchanged on that path. -/
def stop_music (quiet : Bool) (s : SysState) : SysState × List String :=
  match stop_music_body quiet s with
  | .ok r => r
  | .error e => (s, if quiet then [] else ["Error stopping music: " ++ e])

/-- Outcome of running the wrapped foreground command with subprocess.run:
it either completes with an exit code (subprocess.run itself returns a
CompletedProcess whose returncode it carries), or raises — e.g. a
FileNotFoundError when a command given as a list cannot be launched at all. -/
inductive CmdOutcome where
  | exits (code : Int)
  | raises (msg : String)
deriving DecidableEq, Repr

/-- ClaudeMuzak.run_with_music: start_music (not quiet), then run the command
inside try/finally whose finally clause calls stop_music (not quiet) on both
exit paths; return the command's returncode when it completes, or re-raise
its exception (the first component .error) after the finally has run. The
third component concatenates the printed lines of start, and stop. -/
def run_with_music (cmd : CmdOutcome) (s : SysState) :
    Except String Int × SysState × List String :=
  let r1 := start_music false s
  match cmd with
  | .exits code =>
      let r2 := stop_music false r1.1
      (.ok code, r2.1, r1.2 ++ r2.2)
  | .raises m =>
      let r2 := stop_music false r1.1
      (.error m, r2.1, r1.2 ++ r2.2)

/-- ClaudeMuzak.hook: on "start", call start_music in quiet mode and print
json.dumps of the allow-acknowledgement dict to stdout; on "stop", call
stop_music in quiet mode; return 0 in every case. The first component is
the returned exit status, the third the printed lines. -/
def hook (hookType : String) (s : SysState) : Int × SysState × List String :=
  if hookType == "start" then
    let r := start_music true s
    (0, r.1, ["\x7b\"allow\": true\x7d"])
  else if hookType == "stop" then
    let r := stop_music true s
    (0, r.1, [])
  else
    (0, s, [])

/-- One observation of the listener loop per iteration: select timed out with
no byte, sys.stdin.read(1) returned an empty string, the read raised an
OSError/IOError (caught by the inner handler, which continues the loop), an
unexpected exception escaped the loop body (landing in the outer
except Exception: pass), or a byte (its ord value) was read. -/
inductive PollEvent where
  | noByte
  | emptyRead
  | readErr
  | raiseExn
  | byte (c : Nat)
deriving DecidableEq, Repr

/-- The trigger test of listen_for_escape:
char_ord in [27, 3] or char.lower() == 'q', i.e. ESC (27), Ctrl+C (3),
'q' (113) or 'Q' (81). -/
def isTrigger (c : Nat) : Bool :=
  c == 27 || c == 3 || c == 113 || c == 81

/-- The notice listen_for_escape prints for a trigger byte: ESC and Ctrl+C
are identified by their ord value, anything else that triggered was Q/q. -/
def triggerNotice (c : Nat) : String :=
  if c == 27 then "\r\n🔇 Escape pressed - stopping music..."
  else if c == 3 then "\r\n🔇 Ctrl+C pressed - stopping music..."
  else "\r\n🔇 Q pressed - stopping music..."

/-- The while loop of listen_for_escape over a trace of poll observations:
each iteration first re-checks the shared stop flag (threading.Event) and
exits when it is set; a timed-out select, an empty read, or a caught read
error continue the loop; an unexpected exception exits through the outer
except Exception: pass handler; a trigger byte prints its notice, calls
stop_music(quiet=True), sets the flag and breaks; any other byte continues
the loop. The trace ending models the loop being left (the real loop only
ends via flag, break, or exception; a trace that ends with the flag still
unset simply stops observing there). Result: final system state, final
flag, number of stop_music invocations, printed lines. -/
def listenLoop : List PollEvent → SysState → Bool →
    SysState × Bool × Nat × List String
  | [], s, flag => (s, flag, 0, [])
  | e :: rest, s, flag =>
      if flag then (s, flag, 0, [])
      else
        match e with
        | .noByte => listenLoop rest s flag
        | .emptyRead => listenLoop rest s flag
        | .readErr => listenLoop rest s flag
        | .raiseExn => (s, flag, 0, [])
        | .byte c =>
            if isTrigger c then
              ((stop_music true s).1, true, 1, [triggerNotice c])
            else
              listenLoop rest s flag

/-- The observable outcome of one run of listen_for_escape. -/
structure ListenerResult where
  /-- System state after the run (stop_music may have been invoked). -/
  sys : SysState
  /-- The shared stop flag after the run. -/
  flag : Bool
  /-- How many times stop_music was invoked. -/
  stops : Nat
  /-- The lines printed, in order. -/
  out : List String
  /-- The terminal mode when the listener returns (modes are opaque values;
  tty.setraw switches to a raw mode, tcsetattr restores a saved one). -/
  termMode : Nat
  /-- How many times termios.tcsetattr was invoked to restore the captured
  mode. -/
  restores : Nat
deriving DecidableEq, Repr

/-- ClaudeMuzak.listen_for_escape: return immediately when the termios/tty
modules are unavailable (KEYBOARD_AVAILABLE false). Otherwise capture the
current terminal mode with tcgetattr, switch to raw mode, run the watch
loop inside try/except Exception: pass, and in the finally clause restore
the captured mode with tcsetattr — one restore call on every exit path. -/
def listen_for_escape (kbAvail : Bool) (mode : Nat) (flag0 : Bool)
    (events : List PollEvent) (s : SysState) : ListenerResult :=
  if kbAvail then
    let old := mode
    let r := listenLoop events s flag0
    { sys := r.1, flag := r.2.1, stops := r.2.2.1, out := r.2.2.2,
      termMode := old, restores := 1 }
  else
    { sys := s, flag := flag0, stops := 0, out := [], termMode := mode,
      restores := 0 }

/-! ## Helper lemmas -/

/-- Filtering a list by the same predicate twice equals filtering once. -/
theorem filter_idem {α : Type} (p : α → Bool) (l : List α) :
    (l.filter p).filter p = l.filter p := by
  induction l with
  | nil => rfl
  | cons a t ih =>
      by_cases h : p a = true
      · simp [List.filter, h, ih]
      · simp [List.filter, h, ih]

/-- After start_music the marker is never garbage: the liveness check has
already cleaned a garbage marker before start_music either returns or
overwrites the marker with the decimal pid of the spawned process. -/
theorem start_music_marker_shape (quiet : Bool) (s : SysState) :
    (start_music quiet s).1.marker = none ∨
    ∃ pid, (start_music quiet s).1.marker = some (.pidStr pid) := by
  unfold start_music is_music_playing
  match h : s.marker with
  | none =>
      simp [h]
      cases hg : get_random_music_file s with
      | error e => simp [hg]; exact Or.inl h
      | ok name => simp [hg]
  | some .garbage =>
      simp [h]
      cases hg : get_random_music_file { s with marker := none } <;> simp [hg]
  | some (.pidStr pid) =>
      by_cases ha : aliveB s pid = true
      · simp [h, ha]
      · simp [h, ha]
        cases hg : get_random_music_file { s with marker := none } <;> simp [hg]

/-- When the marker is not garbage, stop_music clears the marker and leaves
no process matching the player signature. -/
theorem stop_music_clears (quiet : Bool) (s : SysState)
    (h : s.marker ≠ some .garbage) :
    (stop_music quiet s).1.marker = none ∧
    ∀ p ∈ (stop_music quiet s).1.procs, p.isPlayerCmd = false := by
  unfold stop_music stop_music_body
  match hm : s.marker with
  | some .garbage => exact absurd hm h
  | some (.pidStr pid) =>
      constructor
      · simp
      · intro p hp
        simp only [List.mem_filter] at hp
        simpa using hp.2
  | none =>
      constructor
      · simp
      · intro p hp
        simp only [List.mem_filter] at hp
        simpa using hp.2

/-! ## Claim theorems -/

/-- C1: Single-instance Start. In every state whose marker records the pid of
a live process, start_music is a no-op: it returns the state unchanged (no
process spawned, marker untouched) and prints exactly "Elevator music is
already playing" unless quiet. -/
theorem start_single_instance (quiet : Bool) (s : SysState) (pid : Nat)
    (h1 : s.marker = some (.pidStr pid)) (h2 : aliveB s pid = true) :
    start_music quiet s =
      (s, if quiet then [] else ["Elevator music is already playing"]) := by
  unfold start_music is_music_playing
  simp [h1, h2]

/-- Witness for C1: a concrete state with marker pid 5 and process 5 alive. -/
def startWitnessState : SysState :=
  { marker := some (.pidStr 5), procs := [⟨5, none, true⟩],
    musicDirExists := true, musicFiles := ["song.mp3"], nextPid := 6,
    rand := 0 }

/-- Witness for C1 at the concrete state startWitnessState. -/
theorem start_single_instance_witness :
    startWitnessState.marker = some (.pidStr 5) ∧
    aliveB startWitnessState 5 = true ∧
    start_music false startWitnessState =
      (startWitnessState, ["Elevator music is already playing"]) :=
  ⟨rfl, rfl, start_single_instance false startWitnessState 5 rfl rfl⟩

/-- C2: Self-healing liveness check. In every state whose marker exists but
is stale (records a pid that is not live) or malformed (garbage content),
is_music_playing returns false and removes the marker, changing nothing
else; being a total function of the state, it propagates no error on any
input. -/
theorem liveness_self_healing (s : SysState)
    (h : s.marker = some .garbage ∨
         ∃ pid, s.marker = some (.pidStr pid) ∧ aliveB s pid = false) :
    is_music_playing s = (false, { s with marker := none }) := by
  unfold is_music_playing
  rcases h with hg | ⟨pid, hp, hd⟩
  · simp [hg]
  · simp [hp, hd]

/-- Witness state for C2: the marker holds garbage content. -/
def staleWitnessState : SysState :=
  { marker := some .garbage, procs := [], musicDirExists := true,
    musicFiles := [], nextPid := 1, rand := 0 }

/-- Witness for C2 at the concrete state staleWitnessState. -/
theorem liveness_self_healing_witness :
    (staleWitnessState.marker = some .garbage ∨
      ∃ pid, staleWitnessState.marker = some (.pidStr pid) ∧
        aliveB staleWitnessState pid = false) ∧
    is_music_playing staleWitnessState =
      (false, { staleWitnessState with marker := none }) :=
  ⟨Or.inl rfl, liveness_self_healing staleWitnessState (Or.inl rfl)⟩

/-- C9: Stop removes the marker whenever it held a pid, live or dead: the
OSError an os.kill on a dead pid raises is caught by the inner handler, so
the unlink that follows still runs. -/
theorem stop_removes_marker (quiet : Bool) (s : SysState) (pid : Nat)
    (h : s.marker = some (.pidStr pid)) :
    (stop_music quiet s).1.marker = none := by
  unfold stop_music stop_music_body
  simp [h]

/-- Witness state for C9: the marker records pid 9, but no process 9 is
live, so the SIGTERM path raises and is swallowed. -/
def deadPidState : SysState :=
  { marker := some (.pidStr 9), procs := [], musicDirExists := false,
    musicFiles := [], nextPid := 1, rand := 0 }

/-- Witness for C9 at the concrete state deadPidState, whose recorded pid is
dead. -/
theorem stop_removes_marker_witness :
    deadPidState.marker = some (.pidStr 9) ∧
    aliveB deadPidState 9 = false ∧
    (stop_music false deadPidState).1.marker = none :=
  ⟨rfl, rfl, stop_removes_marker false deadPidState 9 rfl⟩

/-- C3: Task Runner guaranteed cleanup and status propagation. For every
initial state and every outcome of the wrapped command — an exit with any
code, or a failure to launch that raises — run_with_music returns the
command's own exit code unchanged (re-raising the exception in the raising
case, after the finally clause has run stop_music), and afterwards no
marker and no process matching the player signature remains. -/
theorem run_with_music_cleanup (cmd : CmdOutcome) (s : SysState) :
    (run_with_music cmd s).1 =
      (match cmd with
       | .exits code => .ok code
       | .raises m => .error m) ∧
    (run_with_music cmd s).2.1.marker = none ∧
    ∀ p ∈ (run_with_music cmd s).2.1.procs, p.isPlayerCmd = false := by
  have hshape := start_music_marker_shape false s
  have hng : (start_music false s).1.marker ≠ some .garbage := by
    rcases hshape with h | ⟨pid, h⟩ <;> simp [h]
  have hclear := stop_music_clears false (start_music false s).1 hng
  cases cmd with
  | exits code =>
      refine ⟨rfl, ?_, ?_⟩
      · exact hclear.1
      · exact hclear.2
  | raises m =>
      refine ⟨rfl, ?_, ?_⟩
      · exact hclear.1
      · exact hclear.2

/-- C5: Stop never propagates errors. For every state and quiet flag, either
the body of stop_music completes and stop_music returns its result, or the
body raises and stop_music returns the unchanged state with the exception
reduced to the logged line "Error stopping music: ..." — suppressed when
quiet. In both cases stop_music returns normally. -/
theorem stop_never_propagates (quiet : Bool) (s : SysState) :
    (∃ r, stop_music_body quiet s = .ok r ∧ stop_music quiet s = r) ∨
    (∃ e, stop_music_body quiet s = .error e ∧
      stop_music quiet s =
        (s, if quiet then [] else ["Error stopping music: " ++ e])) := by
  cases h : stop_music_body quiet s with
  | ok r => exact Or.inl ⟨r, rfl, by simp [stop_music, h]⟩
  | error e => exact Or.inr ⟨e, rfl, by simp [stop_music, h]⟩

/-- C6: Stop idempotence when nothing is playing. With the marker absent,
stop_music does not error: it reports "Elevator music is not playing"
unless quiet, the marker stays absent, a second consecutive call returns
exactly what the first did (so any number of consecutive calls agree from
the first on), and on a clean not-playing state — no process matching the
player signature for the unconditional fallback sweep to kill — the state
is returned entirely unchanged, a pure no-op. -/
theorem stop_idempotent_not_playing (quiet : Bool) (s : SysState)
    (h : s.marker = none) :
    (stop_music quiet s).2 =
      (if quiet then [] else ["Elevator music is not playing"]) ∧
    (stop_music quiet s).1.marker = none ∧
    stop_music quiet (stop_music quiet s).1 = stop_music quiet s ∧
    ((∀ p ∈ s.procs, p.isPlayerCmd = false) →
      stop_music quiet s =
        (s, if quiet then [] else ["Elevator music is not playing"])) := by
  refine ⟨?_, ?_, ?_, ?_⟩
  · unfold stop_music stop_music_body
    simp [h]
  · unfold stop_music stop_music_body
    simp [h]
  · unfold stop_music stop_music_body
    simp [h, filter_idem]
  · intro hclean
    unfold stop_music stop_music_body
    have hfix : s.procs.filter (fun p => !p.isPlayerCmd) = s.procs := by
      apply List.filter_eq_self.mpr
      intro p hp
      simp [hclean p hp]
    obtain ⟨m, pr, md, mf, np, rd⟩ := s
    simp_all

/-- Witness state for C6: marker absent, one live process that does not
match the player signature. -/
def stopWitnessState : SysState :=
  { marker := none, procs := [⟨7, none, false⟩], musicDirExists := false,
    musicFiles := [], nextPid := 1, rand := 0 }

/-- Witness for C6 at the concrete state stopWitnessState. -/
theorem stop_idempotent_not_playing_witness :
    stopWitnessState.marker = none ∧
    ((stop_music false stopWitnessState).2 = ["Elevator music is not playing"] ∧
     (stop_music false stopWitnessState).1.marker = none ∧
     stop_music false (stop_music false stopWitnessState).1 =
       stop_music false stopWitnessState ∧
     ((∀ p ∈ stopWitnessState.procs, p.isPlayerCmd = false) →
       stop_music false stopWitnessState =
         (stopWitnessState, ["Elevator music is not playing"]))) :=
  ⟨rfl, stop_idempotent_not_playing false stopWitnessState rfl⟩

/-- C7: Cancellation routing. A byte delivered to the watch loop with the
shared flag still unset routes as follows: a trigger byte (ESC, Ctrl+C,
Q or q) makes the listener print the notice identifying that key, invoke
stop_music exactly once and in quiet mode, set the shared flag, and leave
the loop (the remaining trace is never consumed); any other byte leaves
the flag unset, invokes nothing, and the listener keeps polling — the run
continues exactly as the run on the remaining trace. -/
theorem cancellation_routing (mode : Nat) (c : Nat) (rest : List PollEvent)
    (s : SysState) :
    listen_for_escape true mode false (.byte c :: rest) s =
      (if isTrigger c then
        { sys := (stop_music true s).1, flag := true, stops := 1,
          out := [triggerNotice c], termMode := mode, restores := 1 }
      else
        listen_for_escape true mode false rest s) := by
  by_cases h : isTrigger c = true
  · simp [listen_for_escape, listenLoop, h]
  · simp only [Bool.not_eq_true] at h
    simp [listen_for_escape, listenLoop, h]

/-- C8: Terminal restoration. On a platform with raw terminal control, for
every initial terminal mode, initial flag, poll trace (covering exits by
trigger, by natural loop end, and by an exception inside the loop body)
and system state, the listener returns with the terminal mode it captured
at entry, restored by exactly one tcsetattr call. -/
theorem terminal_restoration (mode : Nat) (flag0 : Bool)
    (events : List PollEvent) (s : SysState) :
    (listen_for_escape true mode flag0 events s).termMode = mode ∧
    (listen_for_escape true mode flag0 events s).restores = 1 := by
  constructor <;> simp [listen_for_escape]

/-- C10: the hook entry point acknowledges unconditionally. For every state
— including states where start_music fails because the music directory is
missing or empty, its quiet mode swallowing the error — hook "start"
prints exactly the JSON acknowledgement line and returns exit status 0,
and hook "stop" returns exit status 0. -/
theorem hook_unconditional_ack (s : SysState) :
    (hook "start" s).1 = 0 ∧
    (hook "start" s).2.2 = ["\x7b\"allow\": true\x7d"] ∧
    (hook "stop" s).1 = 0 := by
  refine ⟨?_, ?_, ?_⟩ <;> simp [hook]

/-- Counterexample state for C4: the marker records pid 10 (the spawned
driver); process 11 is a child of 10 that matches the player signature;
process 12 is a child of 11 — hence a process the session spawned, two
levels below the tracked pid — whose command line does not match the
player signature. -/
def c4State : SysState :=
  { marker := some (.pidStr 10),
    procs := [⟨10, none, true⟩, ⟨11, some 10, true⟩, ⟨12, some 11, false⟩],
    musicDirExists := true, musicFiles := ["song.mp3"], nextPid := 20,
    rand := 0 }

/-- Counterexample refuting C4 as stated: stop_music runs pkill -P pid,
which signals only the processes whose parent pid is the recorded pid —
the direct children — not all descendants. In c4State, process 12 is a
descendant of the tracked pid 10 (child of 10's child 11), yet after
stop_music it is still live: it is not a direct child of 10, and it
escapes the fallback sweep because its command line does not match
afplay.*muzakfiles. So a process the session spawned remains. -/
theorem stop_descendant_counterexample :
    c4State.marker = some (.pidStr 10) ∧
    (⟨11, some 10, true⟩ : Proc) ∈ c4State.procs ∧
    (⟨12, some 11, false⟩ : Proc) ∈ c4State.procs ∧
    ((stop_music true c4State).1.procs.any (fun p => p.pid == 12)) = true := by
  decide

/-- C4 amended: when the marker records a pid, Stop terminates the direct
children of that pid first (pkill -P), then signals the recorded process
itself, tolerating already-dead for either, removes the marker, and
finally sweeps every process matching the player signature; afterwards
neither the tracked process, nor any direct child of it, nor any process
matching the player signature remains — but a deeper descendant that does
not match the player signature may survive. -/
theorem stop_terminates_children (quiet : Bool) (s : SysState) (pid : Nat)
    (h : s.marker = some (.pidStr pid)) :
    (stop_music quiet s).1.marker = none ∧
    ∀ p ∈ (stop_music quiet s).1.procs,
      p.pid ≠ pid ∧ p.parent ≠ some pid ∧ p.isPlayerCmd = false := by
  unfold stop_music stop_music_body
  simp only [h]
  constructor
  · simp
  · intro p hp
    simp only [List.mem_filter, Bool.not_eq_true'] at hp
    refine ⟨?_, ?_, ?_⟩
    · simpa using hp.1.2
    · simpa using hp.1.1.2
    · simpa using hp.2

/-- Witness for the amended C4 at the concrete state c4State. -/
theorem stop_terminates_children_witness :
    c4State.marker = some (.pidStr 10) ∧
    ((stop_music true c4State).1.marker = none ∧
     ∀ p ∈ (stop_music true c4State).1.procs,
       p.pid ≠ 10 ∧ p.parent ≠ some 10 ∧ p.isPlayerCmd = false) :=
  ⟨rfl, stop_terminates_children true c4State 10 rfl⟩

end ClaudeMuzak
